import Mathlib

/-!
Shallow embedding of the argument-validation prototype in src/demo.py,
together with proofs about its behaviour.  Python dictionaries are modelled
as association lists (insertion order preserved), Python exceptions as
Except values, and the side-effecting checkers (filesystem access, GDAL
dataset inspection, sympy expression evaluation) as functions over explicit
abstract state.  Line numbers in doc comments refer to src/demo.py.
-/

namespace Demo

variable {ω : Type}

/-- Python values as they occur in an args mapping: None, strings and
numbers.  The numeric domain is modelled with integers. -/
inductive PyVal where
  | none
  | str (s : String)
  | num (n : Int)
  deriving DecidableEq

/-- The membership test performed at lines 290 and 337 of demo.py:
whether a value is in the tuple holding the empty string and None. -/
def PyVal.isNoValue : PyVal → Bool
  | PyVal.str s => s == ""
  | PyVal.none => true
  | PyVal.num _ => false

/-- The value of the `required` entry of a Field Spec: a bool, a string, or
a list of field names (the shapes the Specification data model uses). -/
inductive PyRequired where
  | bool (b : Bool)
  | str (s : String)
  | list (l : List String)
  deriving DecidableEq

/-- The test written as `parameter_spec[...] is True` at line 286. -/
def PyRequired.isTrue : PyRequired → Bool
  | PyRequired.bool true => true
  | _ => false

/-- The test written as `isinstance(parameter_spec[...], str)` at line 292. -/
def PyRequired.isStr : PyRequired → Bool
  | PyRequired.str _ => true
  | _ => false

/-- Iterating a Python value with a for loop, as line 330 does with the
`required` entry: a string yields its characters as one-character strings,
a list yields its elements.  (A bool is not iterable; that case never
arises at line 330 and is modelled as the empty iteration.) -/
def PyRequired.pyIter : PyRequired → List String
  | PyRequired.str s => s.data.map (fun c => String.mk [c])
  | PyRequired.list l => l
  | PyRequired.bool _ => []

/-- One entry of a Specification: demo.py stores `type`, `required` and
`validation_options` in a dict per field.  The validation options are
consumed only by the dispatched checker, so their type is a parameter. -/
structure FieldSpec (ω : Type) where
  type : String
  required : PyRequired
  validation_options : ω
  deriving DecidableEq

/-- The args mapping: field name to value, in insertion order. -/
abbrev Args := List (String × PyVal)

/-- A Warning as demo.py builds them: a list of field names and a message. -/
abbrev Warning := List String × String

/-- Dictionary lookup `args[key]`, with None standing for a KeyError. -/
def pyLookup (args : Args) (key : String) : Option PyVal :=
  match args.find? (fun p => p.1 == key) with
  | Option.none => Option.none
  | Option.some p => Option.some p.2

/-- Lookup of a field name in the Specification (`spec[key]`). -/
def specLookup (spec : List (String × FieldSpec ω)) (key : String) :
    Option (FieldSpec ω) :=
  match spec.find? (fun p => p.1 == key) with
  | Option.none => Option.none
  | Option.some p => Option.some p.2

/-- A type checker as called on lines 312..313: it receives the field's
validation options and the value, and either returns an optional warning
message or raises (modelled as Except.error). -/
abbrev Checker (ω : Type) : Type := ω → PyVal → Except Unit (Option String)

/-- The VALIDATION_FUNCS table (lines 265..275) seen as a partial map from
type tag to checker.  The concrete checkers perform filesystem and GDAL
effects, so the orchestrator is analysed for an arbitrary registry. -/
abbrev Registry (ω : Type) : Type := String → Option (Checker ω)

/-- Lexicographic comparison of character lists through their code
points, the order Python's `sorted` uses on strings. -/
def charListLt : List Char → List Char → Bool
  | [], [] => false
  | [], _ :: _ => true
  | _ :: _, [] => false
  | a :: as, b :: bs =>
      if a.toNat < b.toNat then true
      else if b.toNat < a.toNat then false
      else charListLt as bs

/-- Lexicographic strict order on strings. -/
def pyStrLt (s t : String) : Bool := charListLt s.data t.data

/-- Insertion of a string into an already sorted list, using the
lexicographic order on strings. -/
def insertString (s : String) : List String → List String
  | [] => [s]
  | t :: ts => if pyStrLt t s then t :: insertString s ts else s :: t :: ts

/-- Python's `sorted` on a collection of strings (lexicographic order),
as used at lines 297 and 301. -/
def sortedStrings : List String → List String
  | [] => []
  | s :: ss => insertString s (sortedStrings ss)

/-- Phase 1 (lines 285..288): unconditionally required keys absent from
the args dict. -/
def missingKeys (args : Args) (spec : List (String × FieldSpec ω)) :
    List String :=
  (spec.filter (fun p => p.2.required.isTrue && (pyLookup args p.1).isNone)).map Prod.fst

/-- Phase 1 (lines 289..291): required keys present whose value is the
empty string or None. -/
def keysWithNoValue (args : Args) (spec : List (String × FieldSpec ω)) :
    List String :=
  (spec.filter (fun p => p.2.required.isTrue &&
      (match pyLookup args p.1 with
       | Option.some v => v.isNoValue
       | Option.none => false))).map Prod.fst

/-- Phase 1 (lines 292..293): keys collected as conditionally required.
The source tests `isinstance(parameter_spec['required'], str)` in the elif
branch, so only a string-valued `required` is collected; a list-valued
`required` is NOT collected. -/
def conditionallyRequiredKeys (spec : List (String × FieldSpec ω)) :
    List String :=
  (spec.filter (fun p =>
      if p.2.required.isTrue then false else p.2.required.isStr)).map Prod.fst

/-- The two aggregated warnings of lines 295..301, in emission order. -/
def phase1Warnings (args : Args) (spec : List (String × FieldSpec ω)) :
    List Warning :=
  (if missingKeys args spec = [] then [] else
    [(sortedStrings (missingKeys args spec), "Key is missing from the args dict")])
  ++ (if keysWithNoValue args spec = [] then [] else
    [(sortedStrings (keysWithNoValue args spec), "Key is required but has no value")])

/-- Line 303 writes `invalid_keys = missing_keys + keys_with_no_value`.
Python sets do not support the + operator, so the line as written raises
TypeError on every call; the evident intent, which the comments and the
rest of the pipeline rely on, is the union of the two groups.  It is
modelled here as list concatenation (membership-wise the union of the two
disjoint groups). -/
def phase1Invalid (args : Args) (spec : List (String × FieldSpec ω)) :
    List String :=
  missingKeys args spec ++ keysWithNoValue args spec

/-- The generic message appended at line 321. -/
def genericErrorMsg : String := "An unexpected error occurred in validation"

/-- The body of the try block at lines 311..313: the subscript `args[key]`
(which raises KeyError when the key is absent — there is no membership test
first) followed by the checker call. -/
def checkerAttempt (args : Args) (f : Checker ω) (ps : FieldSpec ω)
    (key : String) : Except Unit (Option String) :=
  match pyLookup args key with
  | Option.none => Except.error ()
  | Option.some v => f ps.validation_options v

/-- Python errors that escape _do_the_validation: the registry subscript
`VALIDATION_FUNCS[parameter_spec['type']]` at line 310 sits outside the
try block, so its KeyError propagates out of the function. -/
inductive PyErr where
  | keyError
  deriving DecidableEq

/-- One iteration of the phase-2 loop (lines 306..321): a key already in
the invalid set is skipped; the checker is looked up outside the try block
(an unknown type tag is fatal); inside the try block a raised error becomes
the generic warning (without adding the key to the invalid set, exactly as
the except branch at lines 318..321 omits to), and a returned message
becomes a one-field warning and marks the key invalid. -/
def phase2Step (r : Registry ω) (args : Args)
    (st : List Warning × List String) (entry : String × FieldSpec ω) :
    Except PyErr (List Warning × List String) :=
  if entry.1 ∈ st.2 then Except.ok st
  else
    match r entry.2.type with
    | Option.none => Except.error PyErr.keyError
    | Option.some f =>
        match checkerAttempt args f entry.2 entry.1 with
        | Except.error _ =>
            Except.ok (st.1 ++ [([entry.1], genericErrorMsg)], st.2)
        | Except.ok Option.none => Except.ok st
        | Except.ok (Option.some msg) =>
            Except.ok (st.1 ++ [([entry.1], msg)], st.2 ++ [entry.1])

/-- Phase 2: the loop over all spec items (lines 306..321). -/
def phase2 (r : Registry ω) (args : Args)
    (spec : List (String × FieldSpec ω))
    (st : List Warning × List String) :
    Except PyErr (List Warning × List String) :=
  spec.foldlM (phase2Step r args) st

/-- The body of the inner phase-3 loop (lines 330..339), run once per
upstream key of one conditionally required key. -/
def phase3Inner (args : Args) (invalid : List String) (key : String)
    (acc : List Warning) (upstream : String) : List Warning :=
  if upstream ∈ invalid then acc
  else
    match pyLookup args key with
    | Option.none => acc ++ [([key], "Key is missing from the args dict")]
    | Option.some v =>
        if v.isNoValue then acc ++ [([key], "Key is required but has no value")]
        else acc

/-- One iteration of the phase-3 loop (lines 324..339) for one
conditionally required key: skip it when already invalid; otherwise, for
EACH upstream key not in the invalid set, emit the missing / no-value
warning (the source has no break, so several valid upstream keys emit the
warning several times). -/
def phase3Step (args : Args) (spec : List (String × FieldSpec ω))
    (invalid : List String) (ws : List Warning) (key : String) :
    List Warning :=
  if key ∈ invalid then ws
  else
    match specLookup spec key with
    | Option.none => ws
    | Option.some ps => ps.required.pyIter.foldl (phase3Inner args invalid key) ws

/-- Phase 3: the loop over the conditionally required keys. -/
def phase3 (args : Args) (spec : List (String × FieldSpec ω))
    (invalid : List String) (ws : List Warning) : List Warning :=
  (conditionallyRequiredKeys spec).foldl (phase3Step args spec invalid) ws

/-- The whole of _do_the_validation (lines 278..339), parameterised by the
checker registry.  The result is the final value of the function's local
variable validation_warnings; note the source function has no return
statement, so that value is in fact discarded (see the theorem for C1). -/
def doTheValidation (r : Registry ω) (args : Args)
    (spec : List (String × FieldSpec ω)) : Except PyErr (List Warning) :=
  match phase2 r args spec (phase1Warnings args spec, phase1Invalid args spec) with
  | Except.error e => Except.error e
  | Except.ok st => Except.ok (phase3 args spec st.2 st.1)

/-- The public entry point, lines 348..349: `def validate(args): return []`.
It takes only the args mapping, ignores the Specification entirely, never
calls _do_the_validation, and always returns the empty list. -/
def validate (args : Args) : List Warning := []

/-! ### The number checker (lines 228..246) and its expression language -/

/-- Errors validate_number can raise: the AssertionError of line 238 when
the symbol `value` does not occur in the expression, and the NameError
sympy raises when the lambdified expression mentions a symbol that is not
bound (lambdify binds only `value`, line 243). -/
inductive CheckerErr where
  | assertionError
  | nameError
  deriving DecidableEq

/-- Arithmetic atoms of the boolean expressions the Specification passes to
validate_number (sympy expressions over the symbol `value`). -/
inductive AExpr where
  | var (name : String)
  | lit (n : Int)
  deriving DecidableEq

/-- Boolean expressions over numeric atoms, the shapes the spec documents:
comparisons such as `value > 0` and conjunctions such as
`(value >= 0) & (value < 1)`. -/
inductive BExpr where
  | gt (a b : AExpr)
  | ge (a b : AExpr)
  | lt (a b : AExpr)
  | le (a b : AExpr)
  | conj (a b : BExpr)
  deriving DecidableEq

/-- Free symbols of an atom (sympy's free_symbols). -/
def AExpr.freeSymbols : AExpr → List String
  | AExpr.var n => [n]
  | AExpr.lit _ => []

/-- Free symbols of a boolean expression (sympy's free_symbols). -/
def BExpr.freeSymbols : BExpr → List String
  | BExpr.gt a b => a.freeSymbols ++ b.freeSymbols
  | BExpr.ge a b => a.freeSymbols ++ b.freeSymbols
  | BExpr.lt a b => a.freeSymbols ++ b.freeSymbols
  | BExpr.le a b => a.freeSymbols ++ b.freeSymbols
  | BExpr.conj a b => a.freeSymbols ++ b.freeSymbols

/-- The two kinds of Python value that meet in the membership test of
line 236: the plain Python string `'value'` being probed, and the sympy
Symbol objects that populate `parse_expr(...).free_symbols`. -/
inductive SymVal where
  | pyStr (s : String)
  | symbol (name : String)
  deriving DecidableEq

/-- Python equality between those values: values of the same kind compare
by content, but a plain str is never equal to a sympy Symbol (sympy Basic
equality with a foreign type is False), so cross-kind comparison is
false. -/
def pyEq : SymVal → SymVal → Bool
  | SymVal.pyStr a, SymVal.pyStr b => a == b
  | SymVal.symbol a, SymVal.symbol b => a == b
  | _, _ => false

/-- Python's `in` over a collection of such values: membership by
equality. -/
def pyIn (x : SymVal) (l : List SymVal) : Bool := l.any (pyEq x)

/-- The collection `parse_expr(expression).free_symbols` of line 236:
one sympy Symbol object per free symbol name of the expression. -/
def BExpr.sympyFreeSymbols (e : BExpr) : List SymVal :=
  e.freeSymbols.map SymVal.symbol

/-- Evaluation of an atom with only `value` bound to n, as
`sympy.lambdify(['value'], expression)(value)` does; any other symbol
raises a NameError, modelled as Except.error. -/
def AExpr.eval (n : Int) : AExpr → Except Unit Int
  | AExpr.var s => if s = "value" then Except.ok n else Except.error ()
  | AExpr.lit m => Except.ok m

/-- Evaluation of a boolean expression with `value` bound to n. -/
def BExpr.eval (n : Int) : BExpr → Except Unit Bool
  | BExpr.gt a b => do Except.ok (decide ((← a.eval n) > (← b.eval n)))
  | BExpr.ge a b => do Except.ok (decide ((← a.eval n) ≥ (← b.eval n)))
  | BExpr.lt a b => do Except.ok (decide ((← a.eval n) < (← b.eval n)))
  | BExpr.le a b => do Except.ok (decide ((← a.eval n) ≤ (← b.eval n)))
  | BExpr.conj a b => do Except.ok ((← a.eval n) && (← b.eval n))

/-- Rendering of an atom, for the interpolated message of line 244. -/
def AExpr.render : AExpr → String
  | AExpr.var s => s
  | AExpr.lit m => toString m

/-- Rendering of a boolean expression, for the message of line 244. -/
def BExpr.render : BExpr → String
  | BExpr.gt a b => a.render ++ " > " ++ b.render
  | BExpr.ge a b => a.render ++ " >= " ++ b.render
  | BExpr.lt a b => a.render ++ " < " ++ b.render
  | BExpr.le a b => a.render ++ " <= " ++ b.render
  | BExpr.conj a b => "(" ++ a.render ++ ") & (" ++ b.render ++ ")"

/-- Python's `float(value)` conversion of lines 229..232, with None
standing for the TypeError / ValueError branch.  The numeric domain is
modelled with integers. -/
def pyFloat : PyVal → Option Int
  | PyVal.num n => Option.some n
  | PyVal.str s => s.toInt?
  | PyVal.none => Option.none

/-- validate_number (lines 228..246).  The regexp option appears in the
signature but is never read in the body, exactly as in the source.  When
an expression is given, line 236 tests
`'value' in parse_expr(expression).free_symbols`: the plain Python string
is probed in a collection of sympy Symbol objects, so the membership is by
str-versus-Symbol equality and is false for every expression, and the
AssertionError of line 238 is raised on every call that supplies an
expression; the lambdified evaluation and the condition message of lines
243..244 are embedded as written but unreachable. -/
def validate_number (value : PyVal) (regexp : Option String)
    (expression : Option BExpr) : Except CheckerErr (Option String) :=
  match pyFloat value with
  | Option.none => Except.ok (Option.some "Value could not be interpreted as a number")
  | Option.some n =>
      match expression with
      | Option.none => Except.ok Option.none
      | Option.some e =>
          if pyIn (SymVal.pyStr "value") e.sympyFreeSymbols then
            match e.eval n with
            | Except.error _ => Except.error CheckerErr.nameError
            | Except.ok true => Except.ok Option.none
            | Except.ok false =>
                Except.ok (Option.some ("Value does not meet condition " ++ e.render))
          else Except.error CheckerErr.assertionError

/-! ### The file and permission checkers (lines 111..125) -/

/-- The access bits a path grants the running process. -/
structure Perms where
  r : Bool
  w : Bool
  x : Bool
  deriving DecidableEq

/-- An abstract filesystem: each path either does not exist (None) or
exists with the given access bits. -/
abbrev FS : Type := String → Option Perms

/-- The access modes probed through os.access. -/
inductive AccessMode where
  | read
  | write
  | execute
  deriving DecidableEq

/-- os.access: False for a path that does not exist, else the bit asked. -/
def osAccess (fs : FS) (path : String) (m : AccessMode) : Bool :=
  match fs path with
  | Option.none => false
  | Option.some p =>
      match m with
      | AccessMode.read => p.r
      | AccessMode.write => p.w
      | AccessMode.execute => p.x

/-- os.path.exists. -/
def osPathExists (fs : FS) (path : String) : Bool := (fs path).isSome

/-- The triples iterated by the loop of lines 120..123, in source order:
letter, os access mode, descriptor. -/
def permTriples : List (Char × AccessMode × String) :=
  [('r', AccessMode.read, "read"),
   ('w', AccessMode.write, "write"),
   ('x', AccessMode.execute, "execute")]

/-- validate_permissions (lines 119..125): the first requested mode the
process lacks wins.  A Python string of permission letters is modelled as
a list of characters. -/
def validate_permissions (fs : FS) (path : String) (permissions : List Char) :
    Option String :=
  permTriples.findSome? fun t =>
    if permissions.contains t.1 && !(osAccess fs path t.2.1) then
      Option.some ("You must have " ++ t.2.2 ++ " access to this file")
    else Option.none

/-- validate_file (lines 111..117): existence first, then permissions. -/
def validate_file (fs : FS) (filepath : String) (permissions : List Char) :
    Option String :=
  if !(osPathExists fs filepath) then Option.some "File not found"
  else validate_permissions fs filepath permissions

/-! ### The required-fields fragment of validate_vector (lines 179..202) -/

/-- Python's str.upper over the character data of a string. -/
def pyUpper (s : String) : String := String.mk (s.data.map Char.toUpper)

/-- Set difference of string collections (Python set subtraction),
membership-wise. -/
def stringSetDiff (a b : List String) : List String :=
  a.dedup.filter (fun s => !(b.contains s))

/-- The required-fields computation of validate_vector exactly as lines
189..190 write it: `fieldnames - set(field.upper() for field in
required_fields)`, i.e. the upper-cased LAYER field names minus the
upper-cased requested names.  (Note two further slips in the source
fragment: `layer` is read at line 189 before it is assigned at line 195,
and this subtraction names the leftover layer fields, not the requested
fields that are absent.) -/
def vector_missing_fields (layerFieldNames required_fields : List String) :
    List String :=
  stringSetDiff (layerFieldNames.map pyUpper) (required_fields.map pyUpper)

/-- The required-fields check of validate_vector (lines 189..193): a
non-empty `missing_fields` yields the message of line 192 listing the
computed set sorted; otherwise no warning from this fragment. -/
def validate_vector_required_fields (layerFieldNames required_fields : List String) :
    Option String :=
  if vector_missing_fields layerFieldNames required_fields = [] then Option.none
  else
    Option.some ("Fields are missing from the first layer: "
      ++ String.intercalate ", "
          (sortedStrings (vector_missing_fields layerFieldNames required_fields)))

/-! ### Concrete test fixtures used to evaluate the pipeline -/

/-- A checker that accepts every value. -/
def okChecker : Checker Unit := fun _ _ => Except.ok Option.none

/-- A registry that has an accepting checker for every type tag. -/
def okRegistry : Registry Unit := fun _ => Option.some okChecker

/-- A checker that raises on every value. -/
def boomChecker : Checker Unit := fun _ _ => Except.error ()

/-- A checker that rejects every value with a fixed message. -/
def badValueChecker : Checker Unit := fun _ _ => Except.ok (Option.some "bad value")

/-- A registry with no entry for any type tag. -/
def noneRegistry : Registry Unit := fun _ => Option.none

/-- A one-field spec with an unconditionally required workspace_dir. -/
def c1Spec : List (String × FieldSpec Unit) :=
  [("workspace_dir", ⟨"directory", PyRequired.bool true, ()⟩)]

/-- Four unconditionally required fields, declared out of order. -/
def c2Spec : List (String × FieldSpec Unit) :=
  [("b", ⟨"t", PyRequired.bool true, ()⟩),
   ("a", ⟨"t", PyRequired.bool true, ()⟩),
   ("c", ⟨"t", PyRequired.bool true, ()⟩),
   ("e", ⟨"t", PyRequired.bool true, ()⟩)]

/-- Args for c2Spec: b and a absent, c empty-string, e None. -/
def c2Args : Args := [("c", PyVal.str ""), ("e", PyVal.none)]

/-- A required field A and a field B conditionally required on A through a
list-valued `required`, the shape the Specification data model documents. -/
def c3Spec : List (String × FieldSpec Unit) :=
  [("A", ⟨"t", PyRequired.bool true, ()⟩),
   ("B", ⟨"t", PyRequired.list ["A"], ()⟩)]

/-- Args for c3Spec: A present with a valid value, B absent. -/
def c3Args : Args := [("A", PyVal.str "ok")]

/-- A registry whose boom tag raises and whose other tags reject. -/
def c4Registry : Registry Unit := fun t =>
  if t = "boom" then Option.some boomChecker else Option.some badValueChecker

/-- A field whose checker raises. -/
def c4SpecX : FieldSpec Unit := ⟨"boom", PyRequired.bool false, ()⟩

/-- The remaining spec entries after the raising field. -/
def c4Rest : List (String × FieldSpec Unit) :=
  [("y", ⟨"other", PyRequired.bool false, ()⟩)]

/-- Args for the fault-isolation run: both fields present. -/
def c4Args : Args := [("x", PyVal.str "xx"), ("y", PyVal.str "v")]

/-- A field spec whose type tag has no registry entry. -/
def c5Ps : FieldSpec Unit := ⟨"mystery", PyRequired.bool false, ()⟩

/-- Args with a present value for the unknown-typed field. -/
def c5Args : Args := [("a", PyVal.str "v")]

/-- A spec with one conditionally required key B depending on A (through
the string shape the source's isinstance test collects). -/
def c6Spec : List (String × FieldSpec Unit) :=
  [("B", ⟨"t", PyRequired.str "A", ()⟩)]

/-- The expression `value > 0` of the spec's numeric example. -/
def c7Expr : BExpr := BExpr.gt (AExpr.var "value") (AExpr.lit 0)

/-- A filesystem with one existing path `f` that is readable but neither
writable nor executable. -/
def c8FS : FS := fun s =>
  if s = "f" then Option.some ⟨true, false, false⟩ else Option.none

/-! ### Helper lemmas about the phase-2 and phase-3 loops -/

theorem except_ok_bind {ε α β : Type} (x : α) (g : α → Except ε β) :
    (Except.ok x >>= g) = g x := rfl

theorem except_error_bind {ε α β : Type} (e : ε) (g : α → Except ε β) :
    ((Except.error e : Except ε α) >>= g) = Except.error e := rfl

theorem phase2_nil (r : Registry ω) (args : Args) (st : List Warning × List String) :
    phase2 r args [] st = Except.ok st := rfl

theorem phase2_cons (r : Registry ω) (args : Args) (a : String × FieldSpec ω)
    (l : List (String × FieldSpec ω)) (st : List Warning × List String) :
    phase2 r args (a :: l) st
      = (phase2Step r args st a >>= fun st' => phase2 r args l st') := rfl

theorem phase2Step_of_mem (r : Registry ω) (args : Args)
    (st : List Warning × List String) (entry : String × FieldSpec ω)
    (h : entry.1 ∈ st.2) : phase2Step r args st entry = Except.ok st := by
  simp [phase2Step, h]

theorem phase2Step_registered (r : Registry ω) (args : Args)
    (st : List Warning × List String) (entry : String × FieldSpec ω)
    (f : Checker ω) (h : r entry.2.type = Option.some f) :
    ∃ extra inv2, phase2Step r args st entry = Except.ok (st.1 ++ extra, st.2 ++ inv2)
      ∧ inv2 ⊆ [entry.1] := by
  by_cases hm : entry.1 ∈ st.2
  · refine ⟨[], [], ?_, by simp⟩
    simp [phase2Step, hm]
  · cases hc : checkerAttempt args f entry.2 entry.1 with
    | error e =>
        refine ⟨[([entry.1], genericErrorMsg)], [], ?_, by simp⟩
        simp [phase2Step, hm, h, hc]
    | ok o =>
        cases o with
        | none =>
            refine ⟨[], [], ?_, by simp⟩
            simp [phase2Step, hm, h, hc]
        | some msg =>
            refine ⟨[([entry.1], msg)], [entry.1], ?_, by simp⟩
            simp [phase2Step, hm, h, hc]

theorem phase2_registered (r : Registry ω) (args : Args)
    (l : List (String × FieldSpec ω)) :
    ∀ st, (∀ p ∈ l, ∃ f, r p.2.type = Option.some f) →
      ∃ extra inv2, phase2 r args l st = Except.ok (st.1 ++ extra, st.2 ++ inv2)
        ∧ inv2 ⊆ l.map Prod.fst := by
  induction l with
  | nil =>
      intro st _
      exact ⟨[], [], by simp [phase2_nil], by simp⟩
  | cons a l ih =>
      intro st h
      obtain ⟨f, hf⟩ := h a (List.mem_cons_self a l)
      obtain ⟨e1, i1, hstep, hi1⟩ := phase2Step_registered r args st a f hf
      obtain ⟨e2, i2, hfold, hi2⟩ :=
        ih (st.1 ++ e1, st.2 ++ i1) (fun p hp => h p (List.mem_cons_of_mem a hp))
      refine ⟨e1 ++ e2, i1 ++ i2, ?_, ?_⟩
      · rw [phase2_cons, hstep, except_ok_bind, hfold]
        simp [List.append_assoc]
      · rw [List.map_cons]
        exact List.append_subset.mpr
          ⟨hi1.trans (by simp), hi2.trans (List.subset_cons_self _ _)⟩

theorem phase2Step_invalid_mono (r : Registry ω) (args : Args)
    (st : List Warning × List String) (entry : String × FieldSpec ω)
    (st' : List Warning × List String)
    (h : phase2Step r args st entry = Except.ok st') : st.2 ⊆ st'.2 := by
  by_cases hm : entry.1 ∈ st.2
  · rw [phase2Step_of_mem r args st entry hm] at h
    injection h with h
    subst h
    exact List.Subset.refl _
  · cases hr : r entry.2.type with
    | none => simp [phase2Step, hm, hr] at h
    | some f =>
        cases hc : checkerAttempt args f entry.2 entry.1 with
        | error e =>
            simp [phase2Step, hm, hr, hc] at h
            rw [← h]
            exact List.Subset.refl _
        | ok o =>
            cases o with
            | none =>
                simp [phase2Step, hm, hr, hc] at h
                rw [← h]
                exact List.Subset.refl _
            | some msg =>
                simp [phase2Step, hm, hr, hc] at h
                rw [← h]
                exact List.subset_append_left _ _

theorem phase2_invalid_mono (r : Registry ω) (args : Args)
    (spec : List (String × FieldSpec ω)) :
    ∀ st st', phase2 r args spec st = Except.ok st' → st.2 ⊆ st'.2 := by
  induction spec with
  | nil =>
      intro st st' h
      rw [phase2_nil] at h
      injection h with h
      subst h
      exact List.Subset.refl _
  | cons a l ih =>
      intro st st' h
      rw [phase2_cons] at h
      cases hs : phase2Step r args st a with
      | error e => rw [hs, except_error_bind] at h; cases h
      | ok st1 =>
          rw [hs, except_ok_bind] at h
          exact (phase2Step_invalid_mono r args st a st1 hs).trans (ih st1 st' h)

theorem phase2_append (r : Registry ω) (args : Args)
    (l1 l2 : List (String × FieldSpec ω)) :
    ∀ st, phase2 r args (l1 ++ l2) st
      = match phase2 r args l1 st with
        | Except.error e => Except.error e
        | Except.ok st' => phase2 r args l2 st' := by
  induction l1 with
  | nil => intro st; rfl
  | cons a l ih =>
      intro st
      rw [List.cons_append, phase2_cons, phase2_cons]
      cases hs : phase2Step r args st a with
      | error e => rw [except_error_bind, except_error_bind]
      | ok st1 => rw [except_ok_bind, except_ok_bind, ih st1]

theorem pyIn_pyStr_symbols_false (s : String) (l : List String) :
    pyIn (SymVal.pyStr s) (l.map SymVal.symbol) = false := by
  simp [pyIn, pyEq]

theorem phase3Inner_of_invalid (args : Args) (invalid : List String)
    (key : String) (acc : List Warning) (upstream : String)
    (h : upstream ∈ invalid) : phase3Inner args invalid key acc upstream = acc := by
  simp [phase3Inner, h]

theorem phase3_foldl_all_invalid (args : Args) (invalid : List String)
    (key : String) (l : List String) :
    ∀ acc, (∀ u ∈ l, u ∈ invalid) →
      l.foldl (phase3Inner args invalid key) acc = acc := by
  induction l with
  | nil => intro acc _; rfl
  | cons a l ih =>
      intro acc h
      rw [List.foldl_cons,
        phase3Inner_of_invalid args invalid key acc a (h a (List.mem_cons_self a l))]
      exact ih acc (fun u hu => h u (List.mem_cons_of_mem a hu))

theorem phase3Step_all_invalid (args : Args) (spec : List (String × FieldSpec ω))
    (invalid : List String) (ws : List Warning) (key : String) (ps : FieldSpec ω)
    (hsl : specLookup spec key = Option.some ps)
    (h : ∀ u ∈ ps.required.pyIter, u ∈ invalid) :
    phase3Step args spec invalid ws key = ws := by
  by_cases hk : key ∈ invalid
  · simp [phase3Step, hk]
  · simp only [phase3Step, hk, if_false, hsl]
    exact phase3_foldl_all_invalid args invalid key ps.required.pyIter ws h

/-! ### The claims -/

/-- C1: the claim says the public entry point returns the aggregated
ordered Warning list, empty exactly when the Args are fully valid.  The
code does not: `validate` ignores the Specification, never calls
_do_the_validation (whose own warning list is dropped, the function having
no return statement) and returns [] unconditionally — here evaluated
against empty args and a spec with one required field, where the pipeline
itself produces a missing-key warning while validate still returns []. -/
theorem C1_validate_stub_eval (args : Args) (r : Registry Unit) :
    validate args = []
    ∧ doTheValidation r [] c1Spec
        = Except.ok [(["workspace_dir"], "Key is missing from the args dict")] :=
  ⟨rfl, rfl⟩

/-- C2: phase 1 collects required-and-absent keys into one aggregated
missing-keys warning and required-but-empty keys into one aggregated
no-value warning, names sorted lexicographically, and the union of both
groups is the invalid-key set phases 2 and 3 consult (all four fields are
skipped by phase 2 here, whatever the registry).  The union itself is the
corrected reading of line 303, whose literal `set + set` raises TypeError
(see RESULTS). -/
theorem C2_phase1_aggregation_eval (r : Registry Unit) :
    doTheValidation r c2Args c2Spec
      = Except.ok [(["a", "b"], "Key is missing from the args dict"),
                   (["c", "e"], "Key is required but has no value")] := rfl

/-- C3: the claim says a field B with required=["A"], A present and valid
and B absent, gets a "Key is missing from the args dict" Warning.  The
code classifies conditional requirement with isinstance(required, str), so
the list-valued required of B is never collected for phase 3; instead the
phase-2 lookup args["B"] raises KeyError and B receives only the generic
unexpected-error warning, as this evaluation shows. -/
theorem C3_list_required_eval :
    doTheValidation okRegistry c3Args c3Spec
      = Except.ok [(["B"], genericErrorMsg)] := rfl

/-- C4: fault isolation in phase 2.  A field x whose checker raises gets
the one-field generic warning, the loop returns normally, and the rest of
the spec is processed exactly as it would have been from that state, so a
fault in one checker never prevents warnings for other invalid fields. -/
theorem C4_fault_isolation (r : Registry ω) (args : Args)
    (ws : List Warning) (inv : List String) (x : String) (psx : FieldSpec ω)
    (f : Checker ω) (rest : List (String × FieldSpec ω))
    (hreg : r psx.type = Option.some f)
    (hraise : checkerAttempt args f psx x = Except.error ())
    (hx : x ∉ inv)
    (hrest : ∀ p ∈ rest, ∃ g, r p.2.type = Option.some g) :
    ∃ final, phase2 r args ((x, psx) :: rest) (ws, inv) = Except.ok final
      ∧ ([x], genericErrorMsg) ∈ final.1
      ∧ phase2 r args rest (ws ++ [([x], genericErrorMsg)], inv) = Except.ok final := by
  have hstep : phase2Step r args (ws, inv) (x, psx)
      = Except.ok (ws ++ [([x], genericErrorMsg)], inv) := by
    simp [phase2Step, hx, hreg, hraise]
  obtain ⟨extra, inv2, hfold, _⟩ :=
    phase2_registered r args rest (ws ++ [([x], genericErrorMsg)], inv) hrest
  refine ⟨((ws ++ [([x], genericErrorMsg)]) ++ extra, inv ++ inv2), ?_, ?_, ?_⟩
  · rw [phase2_cons, hstep, except_ok_bind]
    exact hfold
  · exact List.mem_append_left extra (List.mem_append_right ws (by simp))
  · exact hfold

/-- Witness for C4 at a concrete run: field x with a raising checker,
field y with a rejecting checker; both warnings are produced. -/
theorem C4_fault_isolation_witness :
    ∃ final, phase2 c4Registry c4Args (("x", c4SpecX) :: c4Rest) ([], [])
        = Except.ok final
      ∧ (["x"], genericErrorMsg) ∈ final.1
      ∧ phase2 c4Registry c4Args c4Rest ([(["x"], genericErrorMsg)], [])
        = Except.ok final := by
  have hrest : ∀ p ∈ c4Rest, ∃ g, c4Registry p.2.type = Option.some g := by
    intro p hp
    simp only [c4Rest, List.mem_singleton] at hp
    subst hp
    exact ⟨badValueChecker, rfl⟩
  have h := C4_fault_isolation c4Registry c4Args [] [] "x" c4SpecX boomChecker
    c4Rest rfl rfl (by simp) hrest
  simpa using h

/-- C5: a type tag with no entry in the registry is fatal: the lookup at
line 310 sits outside the try block, so once the loop reaches that field
(which phase 1 left valid and no earlier field shares a name with), the
whole validation call propagates the KeyError instead of producing any
per-field warning. -/
theorem C5_unknown_type_fatal (r : Registry ω) (args : Args)
    (l1 l2 : List (String × FieldSpec ω)) (k : String) (ps : FieldSpec ω)
    (h1 : ∀ p ∈ l1, ∃ f, r p.2.type = Option.some f)
    (h2 : r ps.type = Option.none)
    (h3 : k ∉ phase1Invalid args (l1 ++ (k, ps) :: l2))
    (h4 : k ∉ l1.map Prod.fst) :
    doTheValidation r args (l1 ++ (k, ps) :: l2) = Except.error PyErr.keyError := by
  obtain ⟨e1, i1, hfold1, hsub1⟩ :=
    phase2_registered r args l1
      (phase1Warnings args (l1 ++ (k, ps) :: l2),
       phase1Invalid args (l1 ++ (k, ps) :: l2)) h1
  have hk1 : k ∉ (phase1Invalid args (l1 ++ (k, ps) :: l2) ++ i1) := by
    intro hk
    rcases List.mem_append.mp hk with h | h
    · exact h3 h
    · exact h4 (hsub1 h)
  have hstep : phase2Step r args
      ((phase1Warnings args (l1 ++ (k, ps) :: l2)) ++ e1,
       (phase1Invalid args (l1 ++ (k, ps) :: l2)) ++ i1) (k, ps)
      = Except.error PyErr.keyError := by
    simp [phase2Step, hk1, h2]
  have hphase2 : phase2 r args (l1 ++ (k, ps) :: l2)
      (phase1Warnings args (l1 ++ (k, ps) :: l2),
       phase1Invalid args (l1 ++ (k, ps) :: l2)) = Except.error PyErr.keyError := by
    rw [phase2_append, hfold1]
    show phase2 r args ((k, ps) :: l2)
        (phase1Warnings args (l1 ++ (k, ps) :: l2) ++ e1,
         phase1Invalid args (l1 ++ (k, ps) :: l2) ++ i1) = Except.error PyErr.keyError
    rw [phase2_cons, hstep, except_error_bind]
  simp [doTheValidation, hphase2]

/-- Witness for C5: a one-field spec whose type tag is absent from the
registry; the call returns the fatal error, not a warning list. -/
theorem C5_unknown_type_fatal_witness :
    doTheValidation noneRegistry c5Args [("a", c5Ps)] = Except.error PyErr.keyError := by
  have h := C5_unknown_type_fatal noneRegistry c5Args [] [] "a" c5Ps
    (by intro p hp; exact absurd hp (List.not_mem_nil p)) rfl (by decide) (by decide)
  simpa using h

/-- C6: the invalid-key set grows monotonically: each phase-2 step only
extends it, a key already in it is skipped by phase 2 (the step returns
the state unchanged), the whole phase-2 loop is monotone, and phase 3
never counts an invalid upstream key as a dependency that makes another
field required (if every upstream key is invalid, nothing is emitted). -/
theorem C6_invalid_keys_monotone (r : Registry ω) (args : Args) :
    (∀ (st : List Warning × List String) (entry : String × FieldSpec ω)
        (st' : List Warning × List String),
        phase2Step r args st entry = Except.ok st' → st.2 ⊆ st'.2)
    ∧ (∀ (st : List Warning × List String) (entry : String × FieldSpec ω),
        entry.1 ∈ st.2 → phase2Step r args st entry = Except.ok st)
    ∧ (∀ (spec : List (String × FieldSpec ω)) (st st' : List Warning × List String),
        phase2 r args spec st = Except.ok st' → st.2 ⊆ st'.2)
    ∧ (∀ (spec : List (String × FieldSpec ω)) (invalid : List String)
        (ws : List Warning) (key : String) (ps : FieldSpec ω),
        specLookup spec key = Option.some ps →
        (∀ u ∈ ps.required.pyIter, u ∈ invalid) →
        phase3Step args spec invalid ws key = ws) :=
  ⟨fun st entry st' h => phase2Step_invalid_mono r args st entry st' h,
   fun st entry h => phase2Step_of_mem r args st entry h,
   fun spec st st' h => phase2_invalid_mono r args spec st st' h,
   fun spec invalid ws key ps hsl h =>
     phase3Step_all_invalid args spec invalid ws key ps hsl h⟩

/-- Witness for C6: a key already invalid is skipped by a concrete phase-2
step, and a conditionally required key whose only upstream key is invalid
emits nothing in phase 3. -/
theorem C6_invalid_keys_monotone_witness :
    phase2Step okRegistry ([] : Args) (([] : List Warning), ["k"])
        ("k", (⟨"t", PyRequired.bool true, ()⟩ : FieldSpec Unit))
      = Except.ok ([], ["k"])
    ∧ phase3Step ([] : Args) c6Spec ["A"] [] "B" = [] := by
  constructor
  · exact (C6_invalid_keys_monotone okRegistry []).2.1 ([], ["k"])
      ("k", ⟨"t", PyRequired.bool true, ()⟩) (by simp)
  · exact (C6_invalid_keys_monotone okRegistry []).2.2.2 c6Spec ["A"] [] "B"
      ⟨"t", PyRequired.str "A", ()⟩ rfl (by decide)

/-- C7: the claim says a parseable value with a boolean expression option
is evaluated with the candidate bound to `value` (0 against `value > 0`
warns, 5 does not), the AssertionError being reserved for expressions
whose free symbols lack `value`.  The code cannot do this: line 236 probes
the Python string `'value'` in a collection of sympy Symbol objects, a
membership that is false for EVERY expression, so the AssertionError of
line 238 is raised on every expression-bearing call — shown here both in
general (any expression, any value parsing to any number) and at the
claim's own examples 0 and 5 against `value > 0`, where the
does-not-meet-condition path is never reached. -/
theorem C7_expression_always_asserts (rgx : Option String) (e : BExpr) :
    (∀ v : PyVal, ∀ n : Int, pyFloat v = Option.some n →
        validate_number v rgx (Option.some e) = Except.error CheckerErr.assertionError)
    ∧ validate_number (PyVal.num 0) rgx (Option.some c7Expr)
        = Except.error CheckerErr.assertionError
    ∧ validate_number (PyVal.num 5) rgx (Option.some c7Expr)
        = Except.error CheckerErr.assertionError := by
  have hfalse : ∀ e' : BExpr,
      pyIn (SymVal.pyStr "value") e'.sympyFreeSymbols = false := by
    intro e'
    simpa [BExpr.sympyFreeSymbols] using
      pyIn_pyStr_symbols_false "value" e'.freeSymbols
  refine ⟨?_, ?_, ?_⟩
  · intro v n hv
    simp [validate_number, hv, hfalse e]
  · simp [validate_number, pyFloat, hfalse c7Expr]
  · simp [validate_number, pyFloat, hfalse c7Expr]

/-- Witness for C7: the general always-raises statement applied at the
concrete value 0, its hypothesis discharged by computation. -/
theorem C7_expression_always_asserts_witness :
    validate_number (PyVal.num 0) Option.none (Option.some c7Expr)
      = Except.error CheckerErr.assertionError :=
  (C7_expression_always_asserts Option.none c7Expr).1 (PyVal.num 0) 0 rfl

/-- C8: the file and permission check: a path that does not exist yields
the not-found message; for an existing path the requested modes are probed
in the fixed order r, w, x and the first missing mode's message is
returned, so an unreadable path asked for "rw" yields the read message and
a readable-but-unwritable path asked for "rw" yields the write message. -/
theorem C8_file_permission_order (fs : FS) (p : String) :
    (∀ perms : List Char, fs p = Option.none →
        validate_file fs p perms = Option.some "File not found")
    ∧ (∀ w x : Bool, fs p = Option.some ⟨false, w, x⟩ →
        validate_file fs p ['r', 'w']
          = Option.some "You must have read access to this file")
    ∧ (∀ x : Bool, fs p = Option.some ⟨true, false, x⟩ →
        validate_file fs p ['r', 'w']
          = Option.some "You must have write access to this file") := by
  refine ⟨?_, ?_, ?_⟩
  · intro perms h
    simp [validate_file, osPathExists, h]
  · intro w x h
    simp [validate_file, validate_permissions, permTriples, osPathExists, osAccess,
      h, List.findSome?]
  · intro x h
    simp [validate_file, validate_permissions, permTriples, osPathExists, osAccess,
      h, List.findSome?]

/-- Witness for C8: a concrete filesystem where `f` exists readable but
not writable and `missing` does not exist. -/
theorem C8_file_permission_order_witness :
    validate_file c8FS "missing" ['r'] = Option.some "File not found"
    ∧ validate_file c8FS "f" ['r', 'w']
      = Option.some "You must have write access to this file" :=
  ⟨(C8_file_permission_order c8FS "missing").1 ['r'] rfl,
   (C8_file_permission_order c8FS "f").2.2 false rfl⟩

/-- C9: the claim says a layer with fields NAME, PATH checked against
required_fields NAME, PATH, STRESSOR_BUFFER yields a warning naming
STRESSOR_BUFFER.  The source subtracts in the wrong direction
(`fieldnames - set(required)`, line 190), so the computed set is empty and
no warning is produced, as this evaluation of the fragment shows. -/
theorem C9_vector_fields_eval :
    validate_vector_required_fields ["NAME", "PATH"]
      ["NAME", "PATH", "STRESSOR_BUFFER"] = Option.none := rfl

/-- C10: phase 2 subscripts args[key] with no membership test, inside the
try block: a field not in the invalid-key set but absent from args gets
the generic unexpected-error warning; and the phase-1 invalid-key set only
ever contains unconditionally required fields, so every optional or
conditionally required absent field reaches that subscript. -/
theorem C10_absent_field_generic_warning (r : Registry ω) (args : Args) :
    (∀ (st : List Warning × List String) (k : String) (ps : FieldSpec ω)
        (f : Checker ω),
        r ps.type = Option.some f → k ∉ st.2 → pyLookup args k = Option.none →
        phase2Step r args st (k, ps)
          = Except.ok (st.1 ++ [([k], genericErrorMsg)], st.2))
    ∧ (∀ (spec : List (String × FieldSpec ω)) (k : String),
        k ∈ phase1Invalid args spec →
        ∃ ps, (k, ps) ∈ spec ∧ ps.required.isTrue = true) := by
  constructor
  · intro st k ps f hf hk hl
    have hattempt : checkerAttempt args f ps k = Except.error () := by
      simp [checkerAttempt, hl]
    simp [phase2Step, hk, hf, hattempt]
  · intro spec k hk
    simp only [phase1Invalid] at hk
    rcases List.mem_append.mp hk with h | h
    · obtain ⟨p, hp, hpk⟩ := List.mem_map.mp h
      obtain ⟨hmem, hcond⟩ := List.mem_filter.mp hp
      simp only [Bool.and_eq_true] at hcond
      refine ⟨p.2, ?_, hcond.1⟩
      rw [← hpk]
      simpa using hmem
    · obtain ⟨p, hp, hpk⟩ := List.mem_map.mp h
      obtain ⟨hmem, hcond⟩ := List.mem_filter.mp hp
      simp only [Bool.and_eq_true] at hcond
      refine ⟨p.2, ?_, hcond.1⟩
      rw [← hpk]
      simpa using hmem

/-- Witness for C10: an optional field absent from empty args gets the
generic warning from a concrete phase-2 step. -/
theorem C10_absent_field_generic_warning_witness :
    phase2Step okRegistry ([] : Args) (([] : List Warning), ([] : List String))
        ("opt", (⟨"t", PyRequired.bool false, ()⟩ : FieldSpec Unit))
      = Except.ok ([(["opt"], genericErrorMsg)], []) := by
  have h := (C10_absent_field_generic_warning okRegistry ([] : Args)).1
    ([], []) "opt" ⟨"t", PyRequired.bool false, ()⟩ okChecker rfl (by simp) rfl
  simpa using h

end Demo
